import Mathlib

/-!
Verification of the EVM execution core of `rust-ethereum`
(`src/execution/types.rs`, `src/execution/program_context.rs`,
`src/execution/instructions.rs`, `src/main.rs`) against its
natural-language specification.

Machine integers are embedded as `Nat` with explicit reduction
modulo `2 ^ w` wherever the source performs wrapping machine
arithmetic.  Rust panics (an `unwrap` on `None`, or a checked
`usize` subtraction that underflows, as in a default debug build)
are embedded as `Option.none`.  The `u256` value type carries the
`< 2 ^ 128` bounds of its two `u128` halves as structure fields.
-/

/-- `u256` from `types.rs`: two `u128` halves, `upper` and `lower`. -/
structure u256 where
  upper : Nat
  lower : Nat
  hu : upper < 2 ^ 128
  hl : lower < 2 ^ 128

theorem u256.ext_iff (x y : u256) : x = y ↔ x.upper = y.upper ∧ x.lower = y.lower := by
  constructor
  · intro h; cases h; exact ⟨rfl, rfl⟩
  · intro ⟨h1, h2⟩; cases x; cases y; cases h1; cases h2; rfl

instance : DecidableEq u256 := fun x y =>
  decidable_of_iff (x.upper = y.upper ∧ x.lower = y.lower) (u256.ext_iff x y).symm

/-- The unsigned integer a `u256` denotes. -/
def u256.val (x : u256) : Nat := x.upper * 2 ^ 128 + x.lower

theorem u256.val_lt (x : u256) : x.val < 2 ^ 256 := by
  have h1 := x.hu
  have h2 := x.hl
  unfold u256.val
  nlinarith [h1, h2]

theorem u256.val_inj (x y : u256) : x.val = y.val ↔ x = y := by
  rw [u256.ext_iff]
  unfold u256.val
  constructor
  · intro h
    have h1 := x.hu
    have h2 := x.hl
    have h3 := y.hu
    have h4 := y.hl
    omega
  · intro ⟨h1, h2⟩; rw [h1, h2]

def u256.zero : u256 := ⟨0, 0, by norm_num, by norm_num⟩

def u256.one : u256 := ⟨0, 1, by norm_num, by norm_num⟩

def u256.max : u256 := ⟨2 ^ 128 - 1, 2 ^ 128 - 1, by norm_num, by norm_num⟩

/-- `u256::from_u8` (the `u8` argument embeds as a `Nat < 256`). -/
def u256.from_u8 (b : Nat) : u256 :=
  ⟨0, b % 2 ^ 128, by norm_num, Nat.mod_lt _ (by norm_num)⟩

/-- `u256::from_u128`. -/
def u256.from_u128 (lower : Nat) : u256 :=
  ⟨0, lower % 2 ^ 128, by norm_num, Nat.mod_lt _ (by norm_num)⟩

/-- `u256::from_u128s`. -/
def u256.from_u128s (upper lower : Nat) : u256 :=
  ⟨upper % 2 ^ 128, lower % 2 ^ 128, Nat.mod_lt _ (by norm_num), Nat.mod_lt _ (by norm_num)⟩

/-- `impl ops::Add for u256`: `overflowing_add` on the lower halves, a
conditional carry folded into `rhs.upper` (itself wrapping), then a
wrapping add of the upper halves. -/
def u256.add (x y : u256) : u256 :=
  let lower := (x.lower + y.lower) % 2 ^ 128
  let overflow := 2 ^ 128 ≤ x.lower + y.lower
  let intermediate_upper := if overflow then (y.upper + 1) % 2 ^ 128 else y.upper
  let upper := (x.upper + intermediate_upper) % 2 ^ 128
  ⟨upper, lower, Nat.mod_lt _ (by norm_num), Nat.mod_lt _ (by norm_num)⟩

theorem u256.add_val (x y : u256) : (x.add y).val = (x.val + y.val) % 2 ^ 256 := by
  have h1 := x.hu
  have h2 := x.hl
  have h3 := y.hu
  have h4 := y.hl
  unfold u256.add u256.val
  by_cases hov : 2 ^ 128 ≤ x.lower + y.lower <;> simp only [hov, if_true, if_false, reduceIte] <;> omega

/-- `u256::less_than(other, equal)`: lexicographic comparison of the halves. -/
def u256.less_than (x y : u256) (equal : Bool) : Bool :=
  if x.upper < y.upper then true
  else if y.upper < x.upper then false
  else if x.lower < y.lower then true
  else if y.lower < x.lower then false
  else equal

/-- `PartialOrd::lt`. -/
def u256.lt (x y : u256) : Bool := u256.less_than x y false

/-- `PartialOrd::le`. -/
def u256.le (x y : u256) : Bool := u256.less_than x y true

/-- `PartialOrd::gt`. -/
def u256.gt (x y : u256) : Bool := !(u256.less_than x y true)

/-- `PartialOrd::ge`. -/
def u256.ge (x y : u256) : Bool := !(u256.less_than x y false)

theorem u256.lt_iff (x y : u256) : u256.lt x y = true ↔ x.val < y.val := by
  have h2 := x.hl
  have h4 := y.hl
  unfold u256.lt u256.less_than u256.val
  split_ifs <;> simp <;> nlinarith

theorem u256.ge_iff (x y : u256) : u256.ge x y = true ↔ y.val ≤ x.val := by
  unfold u256.ge
  rw [Bool.not_eq_true']
  have := u256.lt_iff x y
  unfold u256.lt at this
  constructor
  · intro h
    by_contra hc
    push_neg at hc
    exact absurd (this.mpr hc) (by simp [h])
  · intro h
    by_contra hc
    rw [Bool.not_eq_false] at hc
    exact absurd (this.mp hc) (by omega)

/-- `impl ops::Not for u256`: bitwise complement of each `u128` half
(`!a = 2^128 - 1 - a` for `a < 2^128`). -/
def u256.not (x : u256) : u256 :=
  ⟨2 ^ 128 - 1 - x.upper, 2 ^ 128 - 1 - x.lower, by omega, by omega⟩

theorem u256.not_val (x : u256) : (u256.not x).val = 2 ^ 256 - 1 - x.val := by
  have h1 := x.hu
  have h2 := x.hl
  unfold u256.not u256.val
  simp only
  omega

/-- The body of the `self >= rhs` branch of `impl ops::Sub for u256`:
addition with the two's complement of `rhs` (`self + (!rhs + 1)`). -/
def u256.subGe (x y : u256) : u256 := x.add ((u256.not y).add u256.one)

/-- `impl ops::Sub for u256`.  In the source the `else` branch is the
recursive `u256::max() - (rhs - self)`; both inner calls satisfy the
`self >= rhs` guard (see `u256.sub_recursive_form`), so they are written
with the guarded branch body `u256.subGe`. -/
def u256.sub (x y : u256) : u256 :=
  if u256.ge x y then u256.subGe x y
  else u256.subGe u256.max (u256.subGe y x)

theorem u256.subGe_val (x y : u256) (h : y.val ≤ x.val) :
    (u256.subGe x y).val = x.val - y.val := by
  have hx := x.val_lt
  have hy := y.val_lt
  unfold u256.subGe
  rw [u256.add_val, u256.add_val, u256.not_val]
  have hone : u256.one.val = 1 := rfl
  rw [hone]
  omega

theorem u256.ge_max (z : u256) : u256.ge u256.max z = true := by
  rw [u256.ge_iff]
  have h := z.val_lt
  have hmax : u256.max.val = 2 ^ 256 - 1 := rfl
  omega

/-- The source's `sub` literally satisfies its own recursive unfolding:
the `else` branch is `max - (rhs - self)` computed by `sub` itself. -/
theorem u256.sub_recursive_form (x y : u256) :
    u256.sub x y =
      if u256.ge x y then u256.subGe x y
      else u256.sub u256.max (u256.sub y x) := by
  unfold u256.sub
  by_cases h : u256.ge x y = true
  · simp [h]
  · rw [Bool.not_eq_true] at h
    have hyx : u256.ge y x = true := by
      rw [u256.ge_iff]
      have := (u256.ge_iff x y)
      rw [h] at this
      simp at this
      omega
    simp [h, hyx, u256.ge_max]

theorem u256.sub_val_of_ge (x y : u256) (h : y.val ≤ x.val) :
    (u256.sub x y).val = x.val - y.val := by
  unfold u256.sub
  rw [if_pos ((u256.ge_iff x y).mpr h)]
  exact u256.subGe_val x y h

theorem u256.sub_val_of_lt (x y : u256) (h : x.val < y.val) :
    (u256.sub x y).val = 2 ^ 256 - 1 - (y.val - x.val) := by
  have hy := y.val_lt
  unfold u256.sub
  rw [if_neg (by rw [Bool.not_eq_true]; rw [Bool.eq_false_iff]; intro hc; exact absurd ((u256.ge_iff x y).mp hc) (by omega))]
  rw [u256.subGe_val u256.max _ ?hle, u256.subGe_val y x (by omega)]
  case hle =>
    rw [u256.subGe_val y x (by omega)]
    have hmax : u256.max.val = 2 ^ 256 - 1 := rfl
    omega
  have hmax : u256.max.val = 2 ^ 256 - 1 := rfl
  omega

/-- The loop of `impl ops::Mul for u256`, embedded with a structural
iteration budget: `acc` starts at `self`, `i` starts at `1`, and while
`i < rhs` the loop adds `self` to `acc`.  The loop runs exactly
`rhs.val - 1` times when `1 ≤ rhs.val` (and never when `rhs.val ≤ 1`),
so any budget of at least `rhs.val` iterations computes the exact value
the source loop does. -/
def u256.mulLoop (self : u256) : Nat → u256 → u256 → u256 → u256
  | 0, acc, _, _ => acc
  | n + 1, acc, i, rhs =>
    if u256.lt i rhs then u256.mulLoop self n (acc.add self) (i.add u256.one) rhs
    else acc

/-- `impl ops::Mul for u256` (repeated addition; see `u256.mulLoop`). -/
def u256.mul (x y : u256) : u256 := u256.mulLoop x y.val x u256.one y

/-- The loop of `impl ops::Rem for u256`, embedded with fuel:
`while acc >= rhs { acc = acc - rhs; }` then return `acc`.  `none`
means the budget ran out; since `remFuel n acc zero = none` for every
`n` (see `u256.remFuel_zero_divisor`), a `none` from `u256.rem` is
exactly the source loop spinning forever on a zero divisor. -/
def u256.remFuel : Nat → u256 → u256 → Option u256
  | 0, _, _ => none
  | n + 1, acc, rhs =>
    if u256.ge acc rhs then u256.remFuel n (acc.sub rhs) rhs
    else some acc

/-- `impl ops::Rem for u256`.  The budget `x.val + 1` covers every
terminating execution of the source loop: each iteration subtracts a
positive `rhs` from `acc`, so at most `acc.val` iterations occur. -/
def u256.rem (x y : u256) : Option u256 := u256.remFuel (x.val + 1) x y

theorem u256.remFuel_spec (rhs : u256) (hrhs : rhs.val ≠ 0) :
    ∀ n acc, acc.val < n →
      ∃ r, u256.remFuel n acc rhs = some r ∧ r.val < rhs.val ∧ r.val = acc.val % rhs.val := by
  intro n
  induction n with
  | zero => intro acc h; omega
  | succ n ih =>
    intro acc h
    by_cases hge : u256.ge acc rhs = true
    · have hle := (u256.ge_iff acc rhs).mp hge
      have hsub := u256.sub_val_of_ge acc rhs hle
      obtain ⟨r, hr, hlt, hmod⟩ := ih (acc.sub rhs) (by omega)
      refine ⟨r, ?_, hlt, ?_⟩
      · simp only [u256.remFuel, hge, if_true]
        exact hr
      · rw [hmod, hsub, ← Nat.mod_eq_sub_mod hle]
    · have hlt : acc.val < rhs.val := by
        by_contra hc
        exact hge ((u256.ge_iff acc rhs).mpr (by omega))
      refine ⟨acc, ?_, hlt, (Nat.mod_eq_of_lt hlt).symm⟩
      simp only [u256.remFuel, hge, if_false]
      simp [hge]

theorem u256.remFuel_zero_divisor (n : Nat) :
    ∀ acc, u256.remFuel n acc u256.zero = none := by
  induction n with
  | zero => intro acc; rfl
  | succ n ih =>
    intro acc
    have hge : u256.ge acc u256.zero = true :=
      (u256.ge_iff acc u256.zero).mpr (by have : u256.zero.val = 0 := rfl; omega)
    simp only [u256.remFuel, hge, if_true, ih]

/-- `ProgramError` from `program_context.rs`.  The
`ROMOutOfBoundsError` payload carries `index` and `max_rom_index`. -/
inductive ProgramError where
  | Stopped : ProgramError
  | ROMOutOfBoundsError (index : Nat) (max_rom_index : Nat) : ProgramError
deriving DecidableEq

/-- `Rom`: byte sequence, program counter, and cached `size`. -/
structure Rom where
  rom : List Nat
  pc : Nat
  size : Nat
deriving DecidableEq

/-- `Rom::new`. -/
def Rom.new (rom : List Nat) : Rom := ⟨rom, 0, rom.length⟩

/-- `Rom::next_byte`: if `pc < size`, post-increment `pc` and return
`rom[pc]`; otherwise build `ROMOutOfBoundsError { index: pc,
max_rom_index: self.size - 1 }`.  That `usize` subtraction underflows
when `size = 0`; under checked (debug-profile) arithmetic it panics,
embedded as `none`. -/
def Rom.next_byte (r : Rom) : Option (Except ProgramError (Nat × Rom)) :=
  if r.pc < r.size then
    some (Except.ok (r.rom.getD r.pc 0, ⟨r.rom, r.pc + 1, r.size⟩))
  else if r.size = 0 then none
  else some (Except.error (ProgramError.ROMOutOfBoundsError r.pc (r.size - 1)))

/-- `Stack`: a vector of `u256`.  The head of the list is the top of
the stack (the end of the source `Vec`). -/
structure Stack where
  stack : List u256

/-- `Stack::new`. -/
def Stack.new : Stack := ⟨[]⟩

/-- `Stack::push`: the `len() > 1023` check only prints a
`TODO: Implement stack overflow` message; the value is pushed
unconditionally, so the depth is never capped. -/
def Stack.push (s : Stack) (value : u256) : Stack := ⟨value :: s.stack⟩

/-- `Stack::pop`: the `len() < 1` check only prints a
`TODO: Implement stack underflow` message, after which
`self.stack.pop().unwrap()` panics on an empty stack (`none`). -/
def Stack.pop (s : Stack) : Option (u256 × Stack) :=
  match s.stack with
  | [] => none
  | v :: rest => some (v, ⟨rest⟩)

/-- `Memory` (no operations are implemented in the source). -/
structure Memory where
  memory : List Nat

/-- `Memory::new`. -/
def Memory.new : Memory := ⟨[]⟩

/-- `Storage` (a `Vec<u128>`; no operations are implemented). -/
structure Storage where
  storage : List Nat

/-- `Storage::new`. -/
def Storage.new : Storage := ⟨[]⟩

/-- `ProgramContext`. -/
structure ProgramContext where
  rom : Rom
  stack : Stack
  memory : Memory
  storage : Storage

/-- `ProgramContext::new`. -/
def ProgramContext.new (rom : Rom) : ProgramContext :=
  ⟨rom, Stack.new, Memory.new, Storage.new⟩

/-!
Handlers from `instructions.rs`.  A handler embeds as
`Nat → ProgramContext → Option (ProgramContext × Option ProgramError)`:
`none` is a panic inside the handler; `some (ctx, e?)` is a handler
that returned with the context mutated to `ctx`, where `e? = none` is
`Ok(())` and `e? = some e` is `Err(e)`.  The returned error travels
alongside the mutated context because Rust handlers mutate the context
in place before returning their `Result`.
-/

/-- The `todo` placeholder: prints `TODO: Implement opcode` and returns
`Ok(())` — a no-op step. -/
def instructions.todo (_opcode : Nat) (ctx : ProgramContext) :
    Option (ProgramContext × Option ProgramError) :=
  some (ctx, none)

/-- `stop`: returns `Err(ProgramError::Stopped)`. -/
def instructions.stop (_opcode : Nat) (ctx : ProgramContext) :
    Option (ProgramContext × Option ProgramError) :=
  some (ctx, some ProgramError.Stopped)

/-- `add`: pop `a`, pop `b`, push `a + b`. -/
def instructions.add (_opcode : Nat) (ctx : ProgramContext) :
    Option (ProgramContext × Option ProgramError) :=
  match ctx.stack.pop with
  | none => none
  | some (a, s1) =>
    match s1.pop with
    | none => none
    | some (b, s2) => some (⟨ctx.rom, s2.push (u256.add a b), ctx.memory, ctx.storage⟩, none)

/-- `mul`: pop `a`, pop `b`, push `a * b`. -/
def instructions.mul (_opcode : Nat) (ctx : ProgramContext) :
    Option (ProgramContext × Option ProgramError) :=
  match ctx.stack.pop with
  | none => none
  | some (a, s1) =>
    match s1.pop with
    | none => none
    | some (b, s2) => some (⟨ctx.rom, s2.push (u256.mul a b), ctx.memory, ctx.storage⟩, none)

/-- `sub`: pop `a`, pop `b`, push `a - b`. -/
def instructions.sub (_opcode : Nat) (ctx : ProgramContext) :
    Option (ProgramContext × Option ProgramError) :=
  match ctx.stack.pop with
  | none => none
  | some (a, s1) =>
    match s1.pop with
    | none => none
    | some (b, s2) => some (⟨ctx.rom, s2.push (u256.sub a b), ctx.memory, ctx.storage⟩, none)

/-- `f_mod`: pop `a`, pop `b`; `res = a % b` only when `b != 0`, else
`res` keeps its initial `u256::zero()`; push `res`.  The `none` branch
on `u256.rem` is unreachable for a non-zero divisor
(`u256.remFuel_spec`). -/
def instructions.f_mod (_opcode : Nat) (ctx : ProgramContext) :
    Option (ProgramContext × Option ProgramError) :=
  match ctx.stack.pop with
  | none => none
  | some (a, s1) =>
    match s1.pop with
    | none => none
    | some (b, s2) =>
      if b = u256.zero then
        some (⟨ctx.rom, s2.push u256.zero, ctx.memory, ctx.storage⟩, none)
      else
        match u256.rem a b with
        | none => none
        | some r => some (⟨ctx.rom, s2.push r, ctx.memory, ctx.storage⟩, none)

/-- The byte-reading loop of the `push` handler: fetch `push_num` bytes,
forming `byte_data` from each; a fetch error propagates via `?` (with
the ROM mutations made so far kept, since they happened in place). -/
def instructions.pushLoop : Nat → Rom → Option (Rom × Option ProgramError)
  | 0, rom => some (rom, none)
  | n + 1, rom =>
    match rom.next_byte with
    | none => none
    | some (Except.error e) => some (rom, some e)
    | some (Except.ok (b, rom')) =>
      let _byte_data := u256.from_u8 b
      instructions.pushLoop n rom'

/-- `push`: `push_num = opcode + 1 - (OpCode::Push1 as u8)` (`u8`
arithmetic; for the table opcodes `0x60`–`0x7f` this is `1..=32` with
no wrap).  The accumulation line
`data += byte_data << ((push_num-1) * 8)` is commented out in the
source, so `data` stays `u256::zero()` and that zero is what gets
pushed. -/
def instructions.push (opcode : Nat) (ctx : ProgramContext) :
    Option (ProgramContext × Option ProgramError) :=
  let push_num := opcode + 1 - 0x60
  let data := u256.zero
  match instructions.pushLoop push_num ctx.rom with
  | none => none
  | some (rom', some e) => some (⟨rom', ctx.stack, ctx.memory, ctx.storage⟩, some e)
  | some (rom', none) => some (⟨rom', ctx.stack.push data, ctx.memory, ctx.storage⟩, none)

/-- An instruction descriptor: opcode byte, mnemonic, declared stack
items removed/added, immediate width in ROM bytes, and handler. -/
structure Instruction where
  value : Nat
  mnemonic : String
  stack_items_removed : Nat
  stack_items_added : Nat
  rom_items_used : Nat
  execute : Nat → ProgramContext → Option (ProgramContext × Option ProgramError)

/-- The `Instructions` table: the 142 descriptors of the source
`HashMap`, keyed on the opcode byte; `none` for a byte with no entry. -/
def Instructions (opcode : Nat) : Option Instruction :=
  match opcode with
  | 0x00 => some ⟨0x00, "STOP", 0, 0, 0, instructions.stop⟩
  | 0x01 => some ⟨0x01, "ADD", 2, 1, 0, instructions.add⟩
  | 0x02 => some ⟨0x02, "MUL", 2, 1, 0, instructions.mul⟩
  | 0x03 => some ⟨0x03, "SUB", 2, 1, 0, instructions.sub⟩
  | 0x04 => some ⟨0x04, "DIV", 2, 1, 0, instructions.todo⟩
  | 0x05 => some ⟨0x05, "SDIV", 2, 1, 0, instructions.todo⟩
  | 0x06 => some ⟨0x06, "MOD", 2, 1, 0, instructions.f_mod⟩
  | 0x07 => some ⟨0x07, "SMOD", 2, 1, 0, instructions.todo⟩
  | 0x08 => some ⟨0x08, "ADDMOD", 3, 1, 0, instructions.todo⟩
  | 0x09 => some ⟨0x09, "MULMOD", 3, 1, 0, instructions.todo⟩
  | 0x0a => some ⟨0x0a, "EXP", 2, 1, 0, instructions.todo⟩
  | 0x0b => some ⟨0x0b, "SIGNEXTEND", 2, 1, 0, instructions.todo⟩
  | 0x10 => some ⟨0x10, "LT", 2, 1, 0, instructions.todo⟩
  | 0x11 => some ⟨0x11, "GT", 2, 1, 0, instructions.todo⟩
  | 0x12 => some ⟨0x12, "SLT", 2, 1, 0, instructions.todo⟩
  | 0x13 => some ⟨0x13, "SGT", 2, 1, 0, instructions.todo⟩
  | 0x14 => some ⟨0x14, "EQ", 2, 1, 0, instructions.todo⟩
  | 0x15 => some ⟨0x15, "ISZERO", 1, 1, 0, instructions.todo⟩
  | 0x16 => some ⟨0x16, "AND", 2, 1, 0, instructions.todo⟩
  | 0x17 => some ⟨0x17, "OR", 2, 1, 0, instructions.todo⟩
  | 0x18 => some ⟨0x18, "XOR", 2, 1, 0, instructions.todo⟩
  | 0x19 => some ⟨0x19, "NOT", 1, 1, 0, instructions.todo⟩
  | 0x1a => some ⟨0x1a, "BYTE", 2, 1, 0, instructions.todo⟩
  | 0x1b => some ⟨0x1b, "SHL", 2, 1, 0, instructions.todo⟩
  | 0x1c => some ⟨0x1c, "SHR", 2, 1, 0, instructions.todo⟩
  | 0x1d => some ⟨0x1d, "SAR", 2, 1, 0, instructions.todo⟩
  | 0x20 => some ⟨0x20, "KECCAK256", 2, 1, 0, instructions.todo⟩
  | 0x30 => some ⟨0x30, "ADDRESS", 0, 1, 0, instructions.todo⟩
  | 0x31 => some ⟨0x31, "BALANCE", 1, 1, 0, instructions.todo⟩
  | 0x32 => some ⟨0x32, "ORIGIN", 0, 1, 0, instructions.todo⟩
  | 0x33 => some ⟨0x33, "CALLER", 0, 1, 0, instructions.todo⟩
  | 0x34 => some ⟨0x34, "CALLVALUE", 0, 1, 0, instructions.todo⟩
  | 0x35 => some ⟨0x35, "CALLDATALOAD", 1, 1, 0, instructions.todo⟩
  | 0x36 => some ⟨0x36, "CALLDATASIZE", 0, 1, 0, instructions.todo⟩
  | 0x37 => some ⟨0x37, "CALLDATACOPY", 3, 0, 0, instructions.todo⟩
  | 0x38 => some ⟨0x38, "CODESIZE", 0, 1, 0, instructions.todo⟩
  | 0x39 => some ⟨0x39, "CODECOPY", 3, 0, 0, instructions.todo⟩
  | 0x3a => some ⟨0x3a, "GASPRICE", 0, 1, 0, instructions.todo⟩
  | 0x3b => some ⟨0x3b, "EXTCODESIZE", 1, 1, 0, instructions.todo⟩
  | 0x3c => some ⟨0x3c, "EXTCODECOPY", 4, 0, 0, instructions.todo⟩
  | 0x3d => some ⟨0x3d, "RETURNDATASIZE", 0, 1, 0, instructions.todo⟩
  | 0x3e => some ⟨0x3e, "RETURNDATACOPY", 3, 0, 0, instructions.todo⟩
  | 0x3f => some ⟨0x3f, "EXTCODEHASH", 1, 1, 0, instructions.todo⟩
  | 0x40 => some ⟨0x40, "BLOCKHASH", 1, 1, 0, instructions.todo⟩
  | 0x41 => some ⟨0x41, "COINBASE", 0, 1, 0, instructions.todo⟩
  | 0x42 => some ⟨0x42, "TIMESTAMP", 0, 1, 0, instructions.todo⟩
  | 0x43 => some ⟨0x43, "NUMBER", 0, 1, 0, instructions.todo⟩
  | 0x44 => some ⟨0x44, "DIFFICULTY", 0, 1, 0, instructions.todo⟩
  | 0x45 => some ⟨0x45, "GASLIMIT", 0, 1, 0, instructions.todo⟩
  | 0x46 => some ⟨0x46, "CHAINID", 0, 1, 0, instructions.todo⟩
  | 0x47 => some ⟨0x47, "SELFBALANCE", 0, 1, 0, instructions.todo⟩
  | 0x50 => some ⟨0x50, "POP", 1, 0, 0, instructions.todo⟩
  | 0x51 => some ⟨0x51, "MLOAD", 1, 1, 0, instructions.todo⟩
  | 0x52 => some ⟨0x52, "MSTORE", 2, 0, 0, instructions.todo⟩
  | 0x53 => some ⟨0x53, "MSTORE8", 2, 0, 0, instructions.todo⟩
  | 0x54 => some ⟨0x54, "SLOAD", 1, 1, 0, instructions.todo⟩
  | 0x55 => some ⟨0x55, "SSTORE", 2, 0, 0, instructions.todo⟩
  | 0x56 => some ⟨0x56, "JUMP", 1, 0, 0, instructions.todo⟩
  | 0x57 => some ⟨0x57, "JUMPI", 2, 0, 0, instructions.todo⟩
  | 0x58 => some ⟨0x58, "PC", 0, 1, 0, instructions.todo⟩
  | 0x59 => some ⟨0x59, "MSIZE", 0, 1, 0, instructions.todo⟩
  | 0x5a => some ⟨0x5a, "GAS", 0, 1, 0, instructions.todo⟩
  | 0x5b => some ⟨0x5b, "JUMPDEST", 0, 0, 0, instructions.todo⟩
  | 0x60 => some ⟨0x60, "PUSH1", 0, 1, 1, instructions.push⟩
  | 0x61 => some ⟨0x61, "PUSH2", 0, 1, 2, instructions.push⟩
  | 0x62 => some ⟨0x62, "PUSH3", 0, 1, 3, instructions.push⟩
  | 0x63 => some ⟨0x63, "PUSH4", 0, 1, 4, instructions.push⟩
  | 0x64 => some ⟨0x64, "PUSH5", 0, 1, 5, instructions.push⟩
  | 0x65 => some ⟨0x65, "PUSH6", 0, 1, 6, instructions.push⟩
  | 0x66 => some ⟨0x66, "PUSH7", 0, 1, 7, instructions.push⟩
  | 0x67 => some ⟨0x67, "PUSH8", 0, 1, 8, instructions.push⟩
  | 0x68 => some ⟨0x68, "PUSH9", 0, 1, 9, instructions.push⟩
  | 0x69 => some ⟨0x69, "PUSH10", 0, 1, 10, instructions.push⟩
  | 0x6a => some ⟨0x6a, "PUSH11", 0, 1, 11, instructions.push⟩
  | 0x6b => some ⟨0x6b, "PUSH12", 0, 1, 12, instructions.push⟩
  | 0x6c => some ⟨0x6c, "PUSH13", 0, 1, 13, instructions.push⟩
  | 0x6d => some ⟨0x6d, "PUSH14", 0, 1, 14, instructions.push⟩
  | 0x6e => some ⟨0x6e, "PUSH15", 0, 1, 15, instructions.push⟩
  | 0x6f => some ⟨0x6f, "PUSH16", 0, 1, 16, instructions.push⟩
  | 0x70 => some ⟨0x70, "PUSH17", 0, 1, 17, instructions.push⟩
  | 0x71 => some ⟨0x71, "PUSH18", 0, 1, 18, instructions.push⟩
  | 0x72 => some ⟨0x72, "PUSH19", 0, 1, 19, instructions.push⟩
  | 0x73 => some ⟨0x73, "PUSH20", 0, 1, 20, instructions.push⟩
  | 0x74 => some ⟨0x74, "PUSH21", 0, 1, 21, instructions.push⟩
  | 0x75 => some ⟨0x75, "PUSH22", 0, 1, 22, instructions.push⟩
  | 0x76 => some ⟨0x76, "PUSH23", 0, 1, 23, instructions.push⟩
  | 0x77 => some ⟨0x77, "PUSH24", 0, 1, 24, instructions.push⟩
  | 0x78 => some ⟨0x78, "PUSH25", 0, 1, 25, instructions.push⟩
  | 0x79 => some ⟨0x79, "PUSH26", 0, 1, 26, instructions.push⟩
  | 0x7a => some ⟨0x7a, "PUSH27", 0, 1, 27, instructions.push⟩
  | 0x7b => some ⟨0x7b, "PUSH28", 0, 1, 28, instructions.push⟩
  | 0x7c => some ⟨0x7c, "PUSH29", 0, 1, 29, instructions.push⟩
  | 0x7d => some ⟨0x7d, "PUSH30", 0, 1, 30, instructions.push⟩
  | 0x7e => some ⟨0x7e, "PUSH31", 0, 1, 31, instructions.push⟩
  | 0x7f => some ⟨0x7f, "PUSH32", 0, 1, 32, instructions.push⟩
  | 0x80 => some ⟨0x80, "DUP1", 1, 2, 0, instructions.todo⟩
  | 0x81 => some ⟨0x81, "DUP2", 2, 3, 0, instructions.todo⟩
  | 0x82 => some ⟨0x82, "DUP3", 3, 4, 0, instructions.todo⟩
  | 0x83 => some ⟨0x83, "DUP4", 4, 5, 0, instructions.todo⟩
  | 0x84 => some ⟨0x84, "DUP5", 5, 6, 0, instructions.todo⟩
  | 0x85 => some ⟨0x85, "DUP6", 6, 7, 0, instructions.todo⟩
  | 0x86 => some ⟨0x86, "DUP7", 7, 8, 0, instructions.todo⟩
  | 0x87 => some ⟨0x87, "DUP8", 8, 9, 0, instructions.todo⟩
  | 0x88 => some ⟨0x88, "DUP9", 9, 10, 0, instructions.todo⟩
  | 0x89 => some ⟨0x89, "DUP10", 10, 11, 0, instructions.todo⟩
  | 0x8a => some ⟨0x8a, "DUP11", 11, 12, 0, instructions.todo⟩
  | 0x8b => some ⟨0x8b, "DUP12", 12, 13, 0, instructions.todo⟩
  | 0x8c => some ⟨0x8c, "DUP13", 13, 14, 0, instructions.todo⟩
  | 0x8d => some ⟨0x8d, "DUP14", 14, 15, 0, instructions.todo⟩
  | 0x8e => some ⟨0x8e, "DUP15", 15, 16, 0, instructions.todo⟩
  | 0x8f => some ⟨0x8f, "DUP16", 16, 17, 0, instructions.todo⟩
  | 0x90 => some ⟨0x90, "SWAP1", 2, 2, 0, instructions.todo⟩
  | 0x91 => some ⟨0x91, "SWAP2", 3, 3, 0, instructions.todo⟩
  | 0x92 => some ⟨0x92, "SWAP3", 4, 4, 0, instructions.todo⟩
  | 0x93 => some ⟨0x93, "SWAP4", 5, 5, 0, instructions.todo⟩
  | 0x94 => some ⟨0x94, "SWAP5", 6, 6, 0, instructions.todo⟩
  | 0x95 => some ⟨0x95, "SWAP6", 7, 7, 0, instructions.todo⟩
  | 0x96 => some ⟨0x96, "SWAP7", 8, 8, 0, instructions.todo⟩
  | 0x97 => some ⟨0x97, "SWAP8", 9, 9, 0, instructions.todo⟩
  | 0x98 => some ⟨0x98, "SWAP9", 10, 10, 0, instructions.todo⟩
  | 0x99 => some ⟨0x99, "SWAP10", 11, 11, 0, instructions.todo⟩
  | 0x9a => some ⟨0x9a, "SWAP11", 12, 12, 0, instructions.todo⟩
  | 0x9b => some ⟨0x9b, "SWAP12", 13, 13, 0, instructions.todo⟩
  | 0x9c => some ⟨0x9c, "SWAP13", 14, 14, 0, instructions.todo⟩
  | 0x9d => some ⟨0x9d, "SWAP14", 15, 15, 0, instructions.todo⟩
  | 0x9e => some ⟨0x9e, "SWAP15", 16, 16, 0, instructions.todo⟩
  | 0x9f => some ⟨0x9f, "SWAP16", 17, 17, 0, instructions.todo⟩
  | 0xa0 => some ⟨0xa0, "LOG0", 2, 0, 0, instructions.todo⟩
  | 0xa1 => some ⟨0xa1, "LOG1", 3, 0, 0, instructions.todo⟩
  | 0xa2 => some ⟨0xa2, "LOG2", 4, 0, 0, instructions.todo⟩
  | 0xa3 => some ⟨0xa3, "LOG3", 5, 0, 0, instructions.todo⟩
  | 0xa4 => some ⟨0xa4, "LOG4", 6, 0, 0, instructions.todo⟩
  | 0xf0 => some ⟨0xf0, "CREATE", 3, 1, 0, instructions.todo⟩
  | 0xf1 => some ⟨0xf1, "CALL", 7, 1, 0, instructions.todo⟩
  | 0xf2 => some ⟨0xf2, "CALLCODE", 7, 1, 0, instructions.todo⟩
  | 0xf3 => some ⟨0xf3, "RETURN", 2, 0, 0, instructions.todo⟩
  | 0xf4 => some ⟨0xf4, "DELEGATECALL", 6, 1, 0, instructions.todo⟩
  | 0xf5 => some ⟨0xf5, "CREATE2", 4, 1, 0, instructions.todo⟩
  | 0xfa => some ⟨0xfa, "STATICCALL", 6, 1, 0, instructions.todo⟩
  | 0xfd => some ⟨0xfd, "REVERT", 2, 0, 0, instructions.todo⟩
  | 0xfe => some ⟨0xfe, "INVALID", 0, 0, 0, instructions.todo⟩
  | 0xff => some ⟨0xff, "SELFDESTRUCT", 1, 0, 0, instructions.todo⟩
  | _ => none
/-- The interpreter loop of `main.rs::run`, with fuel (each iteration
advances `pc` by at least one, so `N + 1` iterations always suffice for
a ROM of length `N`).  `trace` records every opcode fetched, mirroring
the per-instruction `println!`.  On a fetch error the loop prints and
`break`s; on a fetched opcode with a descriptor it calls
`instruction.execute(...)` and IGNORES the returned `Result`, keeping
only the in-place mutations; on a missing descriptor it prints
`This should raise an exception` and continues. -/
def runLoop : Nat → ProgramContext → List Nat → Option (List Nat × ProgramContext)
  | 0, _, _ => none
  | fuel + 1, ctx, trace =>
    match ctx.rom.next_byte with
    | none => none
    | some (Except.error _) => some (trace, ctx)
    | some (Except.ok (opcode, rom')) =>
      let ctx1 : ProgramContext := ⟨rom', ctx.stack, ctx.memory, ctx.storage⟩
      match Instructions opcode with
      | some instruction =>
        match instruction.execute instruction.value ctx1 with
        | none => none
        | some (ctx2, _) => runLoop fuel ctx2 (trace ++ [opcode])
      | none => runLoop fuel ctx1 (trace ++ [opcode])

/-- `main.rs::run` on an already-decoded ROM byte list. -/
def run (romBytes : List Nat) : Option (List Nat × ProgramContext) :=
  runLoop (romBytes.length + 1) (ProgramContext.new (Rom.new romBytes)) []

/-- Observable outcome of a run: the fetched-opcode trace, the stack
contents as integers (head = top), and the final `pc`; `none` is a
panic. -/
def runView (romBytes : List Nat) : Option (List Nat × List Nat × Nat) :=
  (run romBytes).map (fun p => (p.1, p.2.stack.stack.map u256.val, p.2.rom.pc))

/-!
Claim theorems.
-/

/-- C1: the PUSHn handler does advance the PC past its `n` immediate
bytes (here PC ends at 2 = 0 + 1 + 1), but it pushes `u256::zero()`
rather than the big-endian immediate value: on ROM `60 01` (PUSH1 with
immediate 1) the final stack holds 0, not 1, because the accumulation
line of the `push` handler is commented out in the source. -/
theorem push_advances_pc_but_pushes_zero :
    runView [0x60, 0x01] = some ([0x60], [0], 2) := by decide

/-- C2: executing STOP does NOT terminate the interpreter loop.  The
`stop` handler does return `Err(Stopped)`, but `main.rs::run` discards
the handler's result, so on ROM `00 00` the loop fetches and executes
the second STOP as well, exiting only when the ROM is exhausted (final
pc = 2, trace = both opcodes). -/
theorem stop_does_not_exit_loop :
    runView [0x00, 0x00] = some ([0x00, 0x00], [], 2) ∧
    instructions.stop 0x00 (ProgramContext.new (Rom.new [0x00, 0x00])) =
      some (ProgramContext.new (Rom.new [0x00, 0x00]), some ProgramError.Stopped) :=
  ⟨by decide, rfl⟩

/-- C3 counterexample: `0 - 1` on `u256` is `2^256 - 2`, not the claimed
`2^256 - 1` (the source's own `sub` test pins `(u128::MAX, u128::MAX-1)`),
and the claimed ROM `60 00 60 01 03 00` actually ends with stack `[0]`
(both PUSH1s push zero, then SUB computes `0 - 0`). -/
theorem sub_wrap_counterexample :
    (u256.sub u256.zero u256.one).val = 2 ^ 256 - 2 ∧
    ¬ (u256.sub u256.zero u256.one).val = 2 ^ 256 - 1 ∧
    runView [0x60, 0x00, 0x60, 0x01, 0x03, 0x00] = some ([0x60, 0x60, 0x03, 0x00], [0], 6) :=
  ⟨by decide, by decide, by decide⟩

/-- C3 amended: `u256` subtraction is exact (`x - y`) when `y ≤ x`, but
for `x < y` it returns `2^256 - 1 - (y - x)`, one less than the wrapped
difference; and the ROM `60 00 60 01 03 00` terminates normally with
stack `[0]`. -/
theorem sub_amended :
    (∀ x y : u256, y.val ≤ x.val → (u256.sub x y).val = x.val - y.val) ∧
    (∀ x y : u256, x.val < y.val → (u256.sub x y).val = 2 ^ 256 - 1 - (y.val - x.val)) ∧
    runView [0x60, 0x00, 0x60, 0x01, 0x03, 0x00] = some ([0x60, 0x60, 0x03, 0x00], [0], 6) :=
  ⟨fun x y h => u256.sub_val_of_ge x y h, fun x y h => u256.sub_val_of_lt x y h, by decide⟩

/-- C3 amended, instantiated: `2 - 1 = 1` (the `y ≤ x` branch) and
`0 - 1 = 2^256 - 2` (the `x < y` branch). -/
theorem sub_amended_witness :
    (u256.sub (u256.from_u128s 0 2) u256.one).val = 1 ∧
    (u256.sub u256.zero u256.one).val = 2 ^ 256 - 2 := by
  constructor
  · have h := sub_amended.1 (u256.from_u128s 0 2) u256.one (by decide)
    rw [h]; decide
  · have h := sub_amended.2.1 u256.zero u256.one (by decide)
    rw [h]; decide

/-- C4: opcode 0x04 (DIV) is dispatched to the `todo` placeholder — its
descriptor carries mnemonic DIV but a handler that pops nothing and
pushes nothing — so ROM `60 00 60 05 04 00` ends with BOTH operands
still on the stack (`[0, 0]`, the two zeros the broken PUSH1s pushed),
not with the claimed single quotient `[0]`. -/
theorem div_is_todo_noop :
    runView [0x60, 0x00, 0x60, 0x05, 0x04, 0x00] = some ([0x60, 0x60, 0x04, 0x00], [0, 0], 6) ∧
    (Instructions 0x04).map (fun i => i.mnemonic) = some ("DIV") ∧
    (∀ ctx : ProgramContext, (Instructions 0x04).map (fun i => i.execute i.value ctx) =
      some (some (ctx, none))) :=
  ⟨by decide, rfl, fun ctx => rfl⟩

/-- C5: `u256` multiplication by zero returns the multiplicand, not
zero: the repeated-addition loop initializes the accumulator to `self`
and the `i < rhs` guard never fires for `rhs = 0`, so `1 * 0 = 1`
(`≠ 0 = 1 * 0 mod 2^256`).  For comparison, the source's own pinned
vector `10 * 33 = 330` does hold. -/
theorem mul_by_zero_returns_self :
    u256.mul u256.one u256.zero = u256.one ∧
    ¬ (u256.mul u256.one u256.zero).val = 0 ∧
    (u256.mul (u256.from_u128s 0 10) (u256.from_u128s 0 33)).val = 330 :=
  ⟨by decide, by decide, by decide⟩

/-- C6: neither a byte with no table entry (0x0c) nor the explicit
INVALID byte (0xfe, whose descriptor carries the `todo` handler) stops
execution: on ROMs `0c 00` and `fe 00` the loop continues and fetches
the following opcode, ending only at ROM exhaustion.  No
`Faulted(InvalidOpcode)` transition exists in the code. -/
theorem invalid_opcode_continues :
    Instructions 0x0c = none ∧
    runView [0x0c, 0x00] = some ([0x0c, 0x00], [], 2) ∧
    (Instructions 0xfe).map (fun i => i.mnemonic) = some ("INVALID") ∧
    runView [0xfe, 0x00] = some ([0xfe, 0x00], [], 2) :=
  ⟨rfl, by decide, rfl, by decide⟩

/-- C7: the stack bounds are not enforced.  `push` appends
unconditionally (the overflow check only prints), so a push at depth
1024 yields depth 1025 instead of failing; `pop` on an empty stack hits
`Vec::pop().unwrap()`, a panic that aborts the process (`none`) rather
than a `StackUnderflow` fault. -/
theorem stack_bounds_unenforced :
    (∀ (s : Stack) (v : u256), (Stack.push s v).stack.length = s.stack.length + 1) ∧
    (Stack.push ⟨List.replicate 1024 u256.zero⟩ u256.zero).stack.length = 1025 ∧
    Stack.pop ⟨[]⟩ = none :=
  ⟨fun s v => rfl, by
    show (u256.zero :: List.replicate 1024 u256.zero).length = 1025
    rw [List.length_cons, List.length_replicate], rfl⟩

/-- C8 counterexample: on the empty ROM (`N = 0`), `next_byte` at
`PC = 0 = N` does not return a `ROMOutOfBounds` error — constructing the
error computes `self.size - 1`, which underflows and panics under the
checked arithmetic of a default (debug-profile) build. -/
theorem next_byte_empty_rom_panics :
    (Rom.new []).next_byte = none := rfl

/-- C8 amended: for a non-empty ROM of length `N` — `next_byte` at
`PC < N` returns byte `B[PC]` and increments `PC`; at `PC = N` it fails
with `ROMOutOfBoundsError(N, N - 1)` without aborting; and whenever the
loop's opcode fetch returns any error the loop exits at once, leaving
the context untouched (the EVM run-off-the-end halt).  For `N = 0` the
error construction underflows `size - 1` and panics in a checked build
(see the counterexample). -/
theorem next_byte_amended :
    (∀ (B : List Nat) (pc : Nat), pc < B.length →
      (⟨B, pc, B.length⟩ : Rom).next_byte =
        some (Except.ok (B.getD pc 0, ⟨B, pc + 1, B.length⟩))) ∧
    (∀ B : List Nat, B ≠ [] →
      (⟨B, B.length, B.length⟩ : Rom).next_byte =
        some (Except.error (ProgramError.ROMOutOfBoundsError B.length (B.length - 1)))) ∧
    (∀ (fuel : Nat) (ctx : ProgramContext) (trace : List Nat) (e : ProgramError),
      ctx.rom.next_byte = some (Except.error e) →
      runLoop (fuel + 1) ctx trace = some (trace, ctx)) := by
  refine ⟨fun B pc h => ?_, fun B h => ?_, fun fuel ctx trace e h => ?_⟩
  · simp only [Rom.next_byte, if_pos h]
  · have hlen : B.length ≠ 0 := fun hc => h (List.eq_nil_of_length_eq_zero hc)
    simp only [Rom.next_byte]
    rw [if_neg (by omega), if_neg hlen]
  · simp only [runLoop, h]

/-- C8 amended, instantiated on the one-byte ROM `[0x00]`: a fetch at
`PC = 0` succeeds, a fetch at `PC = 1 = N` returns the out-of-bounds
error, and the loop breaks cleanly on that error. -/
theorem next_byte_amended_witness :
    (⟨[0x00], 0, 1⟩ : Rom).next_byte = some (Except.ok (0x00, ⟨[0x00], 1, 1⟩)) ∧
    (⟨[0x00], 1, 1⟩ : Rom).next_byte =
      some (Except.error (ProgramError.ROMOutOfBoundsError 1 0)) ∧
    runLoop 1 (ProgramContext.new ⟨[0x00], 1, 1⟩) [0x00] =
      some ([0x00], ProgramContext.new ⟨[0x00], 1, 1⟩) := by
  refine ⟨next_byte_amended.1 [0x00] 0 (by decide), next_byte_amended.2.1 [0x00] (by decide), ?_⟩
  exact next_byte_amended.2.2 0 (ProgramContext.new ⟨[0x00], 1, 1⟩) [0x00]
    (ProgramError.ROMOutOfBoundsError 1 0) rfl

/-- C9: `u256` addition is wrapping and correct on the whole ring —
`(x + y).val = (x.val + y.val) mod 2^256` for all `x`, `y` — and the
three pinned carry vectors from the source tests hold: low-half
overflow carries into the high half, high-half overflow wraps to zero,
and simultaneous overflow of both halves wraps to `(1, 0)`. -/
theorem add_wraps_mod_2_pow_256 :
    (∀ x y : u256, (u256.add x y).val = (x.val + y.val) % 2 ^ 256) ∧
    u256.add (u256.from_u128s 0 (2 ^ 127)) (u256.from_u128s 0 (2 ^ 127)) = u256.from_u128s 1 0 ∧
    u256.add (u256.from_u128s (2 ^ 127) 0) (u256.from_u128s (2 ^ 127) 0) = u256.from_u128s 0 0 ∧
    u256.add (u256.from_u128s (2 ^ 127) (2 ^ 127)) (u256.from_u128s (2 ^ 127) (2 ^ 127)) =
      u256.from_u128s 1 0 :=
  ⟨u256.add_val, by decide, by decide, by decide⟩

/-- C10: the repeated-subtraction remainder loop terminates for every
non-zero divisor and returns `r` with `r < y` and `r = x mod y` (each
iteration strictly decreases the accumulator by `y ≥ 1`); for a zero
divisor the loop never terminates — `remFuel` returns `none` for every
iteration budget. -/
theorem rem_terminates_iff_divisor_nonzero :
    (∀ x y : u256, y.val ≠ 0 →
      ∃ r, u256.rem x y = some r ∧ r.val < y.val ∧ r.val = x.val % y.val) ∧
    (∀ (n : Nat) (x : u256), u256.remFuel n x u256.zero = none) := by
  refine ⟨fun x y hy => ?_, fun n x => u256.remFuel_zero_divisor n x⟩
  exact u256.remFuel_spec y hy (x.val + 1) x (by omega)

/-- C10, instantiated: `10 % 3` terminates and returns a value `r` with
`r < 3` and `r = 10 mod 3` (the source's own test vector). -/
theorem rem_terminates_witness :
    (u256.from_u128s 0 3).val ≠ 0 ∧
    ∃ r, u256.rem (u256.from_u128s 0 10) (u256.from_u128s 0 3) = some r ∧
      r.val < (u256.from_u128s 0 3).val ∧
      r.val = (u256.from_u128s 0 10).val % (u256.from_u128s 0 3).val :=
  ⟨by decide,
    rem_terminates_iff_divisor_nonzero.1 (u256.from_u128s 0 10) (u256.from_u128s 0 3) (by decide)⟩
